import Mathlib

/-!
Verification of the egos SD-card protocol emulator embedded in the
SiFive E board model (hw/riscv/sifive_e.c, functions egos_sd_read and
egos_sd_write together with their global protocol state).

The shallow embedding below translates the C globals and the two MMIO
entry points into pure Lean functions over an explicit state record.
Machine integers are modelled as Nat or Int with explicit reductions
modulo 2^32 where C truncation or two-complement wrapping matters.
The C abort sites (the assert(0) calls) are modelled by a `fatal` flag:
a step of the emulator that reaches an assert returns a state with
`fatal := true`, and execution is considered halted at that point, so
the reachability relation does not step out of fatal states.

The 30 ms usleep on the CMD17 staging path is pure real-time delay with
no effect on the protocol state and is therefore not represented.
-/

/-- Block size of the emulated card, as in the C define. -/
def BLOCK_SIZE : Nat := 512

/-- Offset of the SPI1 transmit-data register (C define SPI1_TXDATA). -/
def SPI1_TXDATA : Nat := 72

/-- Offset of the SPI1 receive-data register (C define SPI1_RXDATA). -/
def SPI1_RXDATA : Nat := 76

/-- Size of the backing store array sd_storage: 4 MiB. -/
def SD_STORAGE_SIZE : Nat := 4 * 1024 * 1024

/-- Enum values, in the order of the C enum declaration. -/
def SD_IDLE : Nat := 0

def SD_READY : Nat := 1

def SD_GETTING_CMD0 : Nat := 2

def SD_GETTING_CMD8 : Nat := 3

def SD_GETTING_CMD16 : Nat := 4

def SD_GETTING_CMD55 : Nat := 5

def SD_GETTING_CMD58 : Nat := 6

def SD_GETTING_ACMD41 : Nat := 7

def SD_GETTING_CMD17 : Nat := 8

/-- Pointwise update of a Nat-indexed byte array. -/
def updN (f : Nat → Nat) (i : Nat) (v : Nat) : Nat → Nat :=
  fun j => if j = i then v else f j

/-- Pointwise update of an Int-indexed byte array. -/
def updI (f : Int → Nat) (i : Int) (v : Nat) : Int → Nat :=
  fun j => if j = i then v else f j

/--
The protocol state of the emulator: the file-scope globals sd_state,
sd_cmd_idx, sd_cmd, sd_storage, and the function-static variables of
egos_sd_read (cmd8_idx, cmd58_idx, cmd17_idx, block_to_read).
Byte arrays are total functions; sd_storage and block_to_read are
indexed by Int because the C code can form out-of-range (even negative)
indices into them, which in C is an access to whatever memory sits
around the array.  `fatal` records that an assert(0) was reached.
-/
structure SDState where
  sd_state : Nat
  sd_cmd_idx : Nat
  sd_cmd : Nat → Nat
  sd_storage : Int → Nat
  cmd8_idx : Nat
  cmd58_idx : Nat
  cmd17_idx : Int
  block_to_read : Int → Nat
  fatal : Bool

/-- Initial state: C static initialisation (zeros, cmd17_idx = -1),
with the backing store contents loaded by egos_sd_reset abstracted as
a parameter. -/
def initState (storage : Int → Nat) : SDState :=
  { sd_state := SD_IDLE
    sd_cmd_idx := 0
    sd_cmd := fun _ => 0
    sd_storage := storage
    cmd8_idx := 0
    cmd58_idx := 0
    cmd17_idx := -1
    block_to_read := fun _ => 0
    fatal := false }

/-- 32-bit sign-extended pattern of a byte: the bit pattern, as a Nat
below 2^32, of the C promotion of a (signed) char holding byte b to int. -/
def sext8 (b : Nat) : Nat :=
  if b < 128 then b else 4294967296 - 256 + b

/-- Reinterpret a 32-bit pattern as the value of a C int. -/
def toInt32 (p : Nat) : Int :=
  if p < 2147483648 then (p : Int) else (p : Int) - 4294967296

/-- Two-complement wrap of an integer to the value range of a 32-bit C int. -/
def wrap32 (x : Int) : Int :=
  toInt32 (x.emod 4294967296).toNat

/--
The 32-bit pattern of block_no as computed in egos_sd_read:
  part1 = (sd_cmd[1] << 24) & 0xFF000000, etc., ored together,
with the C shifts of the sign-extended chars performed modulo 2^32.
-/
def blockNoPat (b1 b2 b3 b4 : Nat) : Nat :=
  let part1 := ((sext8 b1 <<< 24) % 4294967296) &&& 0xFF000000
  let part2 := ((sext8 b2 <<< 16) % 4294967296) &&& 0x00FF0000
  let part3 := ((sext8 b3 <<< 8) % 4294967296) &&& 0x0000FF00
  let part4 := sext8 b4 &&& 0x000000FF
  part1 ||| part2 ||| part3 ||| part4

/-- The value of the C int block_no. -/
def blockNoInt (b1 b2 b3 b4 : Nat) : Int :=
  toInt32 (blockNoPat b1 b2 b3 b4)

/-- The byte offset block_no * BLOCK_SIZE used by the memcpy in
egos_sd_read, including the 32-bit wrap of the C int multiplication. -/
def cmd17_offset (s : SDState) : Int :=
  wrap32 (blockNoInt (s.sd_cmd 1) (s.sd_cmd 2) (s.sd_cmd 3) (s.sd_cmd 4) * 512)

/-- The static reply table cmd8_reply of egos_sd_read. -/
def cmd8_reply (i : Nat) : Nat :=
  [0x01, 0x00, 0x00, 0x01, 0xAA].getD i 0

/-- The static reply table cmd58_reply of egos_sd_read. -/
def cmd58_reply (i : Nat) : Nat :=
  [0x00, 0xC0, 0xFF, 0x80, 0x00].getD i 0

/--
The if/else chain in egos_sd_read that follows the reply switch:
block staging and streaming for CMD17, and the reset-to-idle logic.
`c0` is sd_cmd[0]; `ret` is the reply byte chosen by the switch; the
final `&&& 0xFF` is the `ret &= 0xFF` before egos_sd_read returns.
This chain only runs when the switch did not hit its assert(0) default.
-/
def sd_chain (s : SDState) (c0 : Nat) (ret : Nat) : SDState × Nat :=
  if c0 = 0x51 ∧ s.cmd17_idx = -1 then
    -- before sending a disk block: compute block_no, 30ms latency (not
    -- modelled), then memcpy 512 bytes from sd_storage + block_no * 512
    -- into block_to_read + 1.  No bounds check is performed.
    let off := cmd17_offset s
    ({ s with
        cmd17_idx := 0
        block_to_read := fun i =>
          if 1 ≤ i ∧ i ≤ 512 then s.sd_storage (off + (i - 1))
          else s.block_to_read i },
      ret &&& 0xFF)
  else if c0 = 0x51 ∧ s.cmd17_idx < 512 then
    -- during sending a disk block
    ({ s with cmd17_idx := s.cmd17_idx + 1 },
      s.block_to_read s.cmd17_idx &&& 0xFF)
  else if c0 = 0x51 ∧ s.cmd17_idx = 512 then
    -- sending the last byte of a disk block
    ({ s with cmd17_idx := -1, sd_cmd_idx := 0, sd_state := SD_IDLE },
      s.block_to_read s.cmd17_idx &&& 0xFF)
  else if c0 = 0x7A ∧ s.cmd58_idx = 5 then
    ({ s with cmd58_idx := 0, sd_cmd_idx := 0, sd_state := SD_IDLE },
      ret &&& 0xFF)
  else if c0 = 0x48 ∧ s.cmd8_idx = 5 then
    ({ s with cmd8_idx := 0, sd_cmd_idx := 0, sd_state := SD_IDLE },
      ret &&& 0xFF)
  else if ¬c0 = 0x7A ∧ ¬c0 = 0x48 then
    ({ s with sd_cmd_idx := 0, sd_state := SD_IDLE },
      ret &&& 0xFF)
  else
    (s, ret &&& 0xFF)

/--
egos_sd_read: one read of a register at offset `addr`.  Returns the new
state and the value of the read.  Reads away from SPI1_RXDATA return 0.
While the state is not SD_READY, a read returns 0xFF, first promoting
the state to SD_READY once at least 6 command bytes have arrived.  In
SD_READY the switch on sd_cmd[0] picks the reply byte (advancing the
cmd8/cmd58 reply cursors), an unknown stored opcode hits assert(0), and
then the sd_chain logic runs.  block_to_read[0] = 0xFE is (re)written
on every SD_READY read, before the switch, as in the C code.
-/
def egos_sd_read (s : SDState) (addr : Nat) : SDState × Nat :=
  if addr ≠ SPI1_RXDATA then (s, 0)
  else if s.sd_state ≠ SD_READY then
    (if 6 ≤ s.sd_cmd_idx then { s with sd_state := SD_READY } else s, 0xFF)
  else
    let s0 : SDState := { s with block_to_read := updI s.block_to_read 0 0xFE }
    let c0 := s0.sd_cmd 0
    if c0 = 0x40 then sd_chain s0 c0 0x01
    else if c0 = 0x48 then
      sd_chain { s0 with cmd8_idx := s0.cmd8_idx + 1 } c0 (cmd8_reply s0.cmd8_idx)
    else if c0 = 0x7A then
      sd_chain { s0 with cmd58_idx := s0.cmd58_idx + 1 } c0 (cmd58_reply s0.cmd58_idx)
    else if c0 = 0x50 ∨ c0 = 0x51 ∨ c0 = 0x69 ∨ c0 = 0x77 then
      sd_chain s0 c0 0x00
    else
      -- unknown SD command type: assert(0); nothing after it executes
      ({ s0 with fatal := true }, 0)

/--
egos_sd_write: one write of value `val64` to a register at offset
`addr`.  Writes away from SPI1_TXDATA are ignored.  In a receiving
state the byte is appended to sd_cmd ((char) cast keeps the low 8 bits)
and reaching 32 buffered bytes hits assert(0).  In SD_IDLE or SD_READY
the value selects a command: a recognized opcode is stored at the
current sd_cmd_idx and moves to the matching receiving state, 0xFF is
ignored, and any other value hits assert(0).
-/
def egos_sd_write (s : SDState) (addr : Nat) (val64 : Nat) : SDState :=
  if addr ≠ SPI1_TXDATA then s
  else if ¬s.sd_state = SD_IDLE ∧ ¬s.sd_state = SD_READY then
    let s1 : SDState :=
      { s with
          sd_cmd := updN s.sd_cmd s.sd_cmd_idx (val64 % 256)
          sd_cmd_idx := s.sd_cmd_idx + 1 }
    if s1.sd_cmd_idx = 32 then { s1 with fatal := true } else s1
  else if val64 = 0x40 then
    { s with sd_cmd := updN s.sd_cmd s.sd_cmd_idx 0x40
             sd_cmd_idx := s.sd_cmd_idx + 1
             sd_state := SD_GETTING_CMD0 }
  else if val64 = 0x48 then
    { s with sd_cmd := updN s.sd_cmd s.sd_cmd_idx 0x48
             sd_cmd_idx := s.sd_cmd_idx + 1
             sd_state := SD_GETTING_CMD8 }
  else if val64 = 0x50 then
    { s with sd_cmd := updN s.sd_cmd s.sd_cmd_idx 0x50
             sd_cmd_idx := s.sd_cmd_idx + 1
             sd_state := SD_GETTING_CMD16 }
  else if val64 = 0x51 then
    { s with sd_cmd := updN s.sd_cmd s.sd_cmd_idx 0x51
             sd_cmd_idx := s.sd_cmd_idx + 1
             sd_state := SD_GETTING_CMD17 }
  else if val64 = 0x69 then
    { s with sd_cmd := updN s.sd_cmd s.sd_cmd_idx 0x69
             sd_cmd_idx := s.sd_cmd_idx + 1
             sd_state := SD_GETTING_ACMD41 }
  else if val64 = 0x77 then
    { s with sd_cmd := updN s.sd_cmd s.sd_cmd_idx 0x77
             sd_cmd_idx := s.sd_cmd_idx + 1
             sd_state := SD_GETTING_CMD55 }
  else if val64 = 0x7A then
    { s with sd_cmd := updN s.sd_cmd s.sd_cmd_idx 0x7A
             sd_cmd_idx := s.sd_cmd_idx + 1
             sd_state := SD_GETTING_CMD58 }
  else if val64 = 0xFF then
    s
  else
    ({ s with fatal := true })

/-- Write a list of bytes to SPI1_TXDATA in order. -/
def writeBytes (s : SDState) (vals : List Nat) : SDState :=
  vals.foldl (fun t v => egos_sd_write t SPI1_TXDATA v) s

/-- Perform n reads of SPI1_RXDATA, collecting the returned bytes. -/
def readBytes (s : SDState) : Nat → SDState × List Nat
  | 0 => (s, [])
  | n + 1 =>
    let p := egos_sd_read s SPI1_RXDATA
    let q := readBytes p.1 n
    (q.1, p.2 :: q.2)

/-- The abstract command_buffer of the design: the meaningful bytes of
sd_cmd, i.e. its first sd_cmd_idx entries (consuming a frame in the C
code just resets sd_cmd_idx to 0). -/
def commandBuffer (s : SDState) : List Nat :=
  (List.range s.sd_cmd_idx).map s.sd_cmd

/-- The receiving state selected by a recognized opcode byte written in
SD_IDLE or SD_READY, none for unrecognized values. -/
def opcodeTarget (v : Nat) : Option Nat :=
  if v = 0x40 then some SD_GETTING_CMD0
  else if v = 0x48 then some SD_GETTING_CMD8
  else if v = 0x50 then some SD_GETTING_CMD16
  else if v = 0x51 then some SD_GETTING_CMD17
  else if v = 0x69 then some SD_GETTING_ACMD41
  else if v = 0x77 then some SD_GETTING_CMD55
  else if v = 0x7A then some SD_GETTING_CMD58
  else none

/-- States reachable from reset through the two MMIO entry points; no
further steps are taken from a state that has hit an assert. -/
inductive Reachable (storage : Int → Nat) : SDState → Prop where
  | init : Reachable storage (initState storage)
  | write (s : SDState) (addr val : Nat) :
      Reachable storage s → s.fatal = false →
      Reachable storage (egos_sd_write s addr val)
  | read (s : SDState) (addr : Nat) :
      Reachable storage s → s.fatal = false →
      Reachable storage (egos_sd_read s addr).1

/-- The indices at which one call of egos_sd_read at SPI1_RXDATA
accesses the 513-byte array block_to_read, mirroring its branches: the
unconditional write of the start token at index 0, the memcpy target
indices 1..512 on a first CMD17 dispatch, and the streamed read at
cmd17_idx. -/
def blockToReadAccesses (s : SDState) : List Int :=
  if ¬s.sd_state = SD_READY then []
  else
    0 ::
      (if s.sd_cmd 0 = 0x51 ∧ s.cmd17_idx = -1 then
        (List.range 512).map (fun (k : Nat) => (k : Int) + 1)
      else if s.sd_cmd 0 = 0x51 ∧ s.cmd17_idx < 512 then [s.cmd17_idx]
      else if s.sd_cmd 0 = 0x51 ∧ s.cmd17_idx = 512 then [s.cmd17_idx]
      else [])

/-- The block-transfer cursor is -1 (no transfer) or within 0..512. -/
def cmd17Invariant (s : SDState) : Prop :=
  s.cmd17_idx = -1 ∨ (0 ≤ s.cmd17_idx ∧ s.cmd17_idx ≤ 512)

/-- Updating an array cell with the value it already holds is the identity. -/
lemma updI_eq_self {f : Int → Nat} {i : Int} {v : Nat} (h : f i = v) :
    updI f i v = f := by
  funext j
  unfold updI
  by_cases hj : j = i
  · subst hj
    simp [h]
  · simp [hj]

/-- A fixed concrete backing store used by concrete counterexample
traces: zero inside the 4 MiB array, the marker byte 0xAB outside. -/
def oobStorage : Int → Nat :=
  fun i => if 0 ≤ i ∧ i < 4194304 then 0 else 0xAB

/-- Claim C6: for every call to handle_incoming_byte_request (a read of
SPI1_RXDATA) while the state is not Ready, the call returns 0xFF, and
if at least 6 command-frame bytes have been collected the same call
moves the state to Ready, so the first actual reply byte can only be
produced by a subsequent read. -/
theorem c6_not_ready_read (s : SDState) (h : ¬s.sd_state = SD_READY) :
    (egos_sd_read s SPI1_RXDATA).2 = 0xFF ∧
    (6 ≤ s.sd_cmd_idx → (egos_sd_read s SPI1_RXDATA).1.sd_state = SD_READY) := by
  unfold egos_sd_read
  simp only [ne_eq, not_true_eq_false, if_false, h, if_true, ite_not]
  by_cases h6 : 6 ≤ s.sd_cmd_idx
  · simp [h, h6]
  · simp [h, h6]

/-- Witness for C6 at the reset state. -/
theorem c6_not_ready_read_witness :
    ¬(initState oobStorage).sd_state = SD_READY ∧
    ((egos_sd_read (initState oobStorage) SPI1_RXDATA).2 = 0xFF ∧
      (6 ≤ (initState oobStorage).sd_cmd_idx →
        (egos_sd_read (initState oobStorage) SPI1_RXDATA).1.sd_state = SD_READY)) :=
  ⟨by decide, c6_not_ready_read (initState oobStorage) (by decide)⟩

set_option maxRecDepth 4096 in
lemma sd_part1_eq : ∀ b < 256, ((sext8 b <<< 24) % 4294967296) &&& 0xFF000000 = 16777216 * b := by
  decide

set_option maxRecDepth 4096 in
lemma sd_part2_eq : ∀ b < 256, ((sext8 b <<< 16) % 4294967296) &&& 0x00FF0000 = 65536 * b := by
  decide

set_option maxRecDepth 4096 in
lemma sd_part3_eq : ∀ b < 256, ((sext8 b <<< 8) % 4294967296) &&& 0x0000FF00 = 256 * b := by
  decide

set_option maxRecDepth 4096 in
lemma sd_part4_eq : ∀ b < 256, sext8 b &&& 0x000000FF = b := by
  decide

/-- The 32-bit pattern of block_no is the big-endian reading of the
four argument bytes, for all byte values: the explicit masks really do
cancel the sign extension of the char arguments. -/
lemma blockNoPat_eq (b1 b2 b3 b4 : Nat)
    (h1 : b1 < 256) (h2 : b2 < 256) (h3 : b3 < 256) (h4 : b4 < 256) :
    blockNoPat b1 b2 b3 b4 = 16777216 * b1 + 65536 * b2 + 256 * b3 + b4 := by
  unfold blockNoPat
  rw [sd_part1_eq b1 h1, sd_part2_eq b2 h2, sd_part3_eq b3 h3, sd_part4_eq b4 h4]
  have e34 : (256 * b3) ||| b4 = 256 * b3 + b4 := by
    have := Nat.mul_add_lt_is_or (i := 8) (b := b4) (by omega) b3
    simpa using this.symm
  have e234 : (65536 * b2) ||| (256 * b3 + b4) = 65536 * b2 + (256 * b3 + b4) := by
    have := Nat.mul_add_lt_is_or (i := 16) (b := 256 * b3 + b4) (by omega) b2
    simpa using this.symm
  have e1234 : (16777216 * b1) ||| (65536 * b2 + (256 * b3 + b4)) =
      16777216 * b1 + (65536 * b2 + (256 * b3 + b4)) := by
    have := Nat.mul_add_lt_is_or (i := 24) (b := 65536 * b2 + (256 * b3 + b4)) (by omega) b1
    simpa using this.symm
  rw [Nat.lor_assoc, Nat.lor_assoc, e34, e234, e1234]
  omega

/-- Counterexample for claim C7: with argument byte 1 equal to 0x80 the
big-endian 32-bit value of the argument bytes is 2147483648, but the
code computes block_no as a signed int, which comes out negative. -/
theorem c7_counterexample :
    blockNoInt 0x80 0x00 0x00 0x00 = -2147483648 ∧
    ¬blockNoInt 0x80 0x00 0x00 0x00 = 2147483648 := by
  decide

/-- Claim C7 as amended: the 32-bit bit pattern of block_no is the
big-endian reading of command-buffer bytes 1..4 for every value of the
four bytes (the masking defeats char sign extension in every lane), and
the signed int value block_no equals the big-endian value exactly when
byte 1 is below 0x80; when byte 1 is 0x80 or more, block_no is its
two-complement reinterpretation, the big-endian value minus 2^32. -/
theorem c7_amended (b1 b2 b3 b4 : Nat)
    (h1 : b1 < 256) (h2 : b2 < 256) (h3 : b3 < 256) (h4 : b4 < 256) :
    blockNoPat b1 b2 b3 b4 = 16777216 * b1 + 65536 * b2 + 256 * b3 + b4 ∧
    (b1 < 128 →
      blockNoInt b1 b2 b3 b4 =
        16777216 * (b1 : Int) + 65536 * b2 + 256 * b3 + b4) ∧
    (128 ≤ b1 →
      blockNoInt b1 b2 b3 b4 =
        16777216 * (b1 : Int) + 65536 * b2 + 256 * b3 + b4 - 4294967296) := by
  have hpat := blockNoPat_eq b1 b2 b3 b4 h1 h2 h3 h4
  refine ⟨hpat, ?_, ?_⟩
  · intro hlt
    unfold blockNoInt toInt32
    rw [hpat]
    rw [if_pos (by omega)]
    push_cast
    ring
  · intro hge
    unfold blockNoInt toInt32
    rw [hpat]
    rw [if_neg (by omega)]
    push_cast
    ring

/-- Witness for the amended C7 at bytes 0x12 0x34 0x56 0x78. -/
theorem c7_amended_witness :
    ((0x12 : Nat) < 256 ∧ (0x34 : Nat) < 256 ∧ (0x56 : Nat) < 256 ∧ (0x78 : Nat) < 256) ∧
    (blockNoPat 0x12 0x34 0x56 0x78 =
        16777216 * 0x12 + 65536 * 0x34 + 256 * 0x56 + 0x78 ∧
      ((0x12 : Nat) < 128 →
        blockNoInt 0x12 0x34 0x56 0x78 =
          16777216 * ((0x12 : Nat) : Int) + 65536 * (0x34 : Nat) + 256 * (0x56 : Nat) + (0x78 : Nat)) ∧
      (128 ≤ (0x12 : Nat) →
        blockNoInt 0x12 0x34 0x56 0x78 =
          16777216 * ((0x12 : Nat) : Int) + 65536 * (0x34 : Nat) + 256 * (0x56 : Nat) + (0x78 : Nat) - 4294967296)) :=
  ⟨by decide, c7_amended 0x12 0x34 0x56 0x78 (by decide) (by decide) (by decide) (by decide)⟩

/-- Counterexample for claim C3: writing a 7th byte while the
controller is receiving a command frame is accepted without any fatal
condition; the buffer simply grows to 7 bytes. -/
theorem c3_counterexample :
    (writeBytes (initState oobStorage) [0x40, 0, 0, 0, 0, 0, 0]).fatal = false ∧
    (writeBytes (initState oobStorage) [0x40, 0, 0, 0, 0, 0, 0]).sd_cmd_idx = 7 := by
  decide

/-- Claim C3 as amended: while the controller is in a Receiving* state
(neither Idle nor Ready), every written byte is appended to
command_buffer and command_length grows by one; the fatal
buffer-overflow assert fires exactly when the appended byte is the
32nd, so the buffer can hold up to 31 bytes without a fatal error, and
in particular a 7th byte is not a protocol violation. -/
theorem c3_amended (s : SDState) (v : Nat)
    (h1 : ¬s.sd_state = SD_IDLE) (h2 : ¬s.sd_state = SD_READY) :
    (egos_sd_write s SPI1_TXDATA v).sd_cmd_idx = s.sd_cmd_idx + 1 ∧
    (egos_sd_write s SPI1_TXDATA v).sd_cmd s.sd_cmd_idx = v % 256 ∧
    ((egos_sd_write s SPI1_TXDATA v).fatal = true ↔
      (s.sd_cmd_idx + 1 = 32 ∨ s.fatal = true)) := by
  unfold egos_sd_write
  simp only [ne_eq, not_true_eq_false, if_false, ite_not, if_true, h1, h2,
    not_false_eq_true, and_self, if_pos]
  by_cases h32 : s.sd_cmd_idx + 1 = 32
  · simp [h32, updN]
  · simp [h32, updN]

/-- Witness for the amended C3: the second byte of a CMD0 frame. -/
theorem c3_amended_witness :
    (¬(writeBytes (initState oobStorage) [0x40]).sd_state = SD_IDLE ∧
      ¬(writeBytes (initState oobStorage) [0x40]).sd_state = SD_READY) ∧
    ((egos_sd_write (writeBytes (initState oobStorage) [0x40]) SPI1_TXDATA 7).sd_cmd_idx =
        (writeBytes (initState oobStorage) [0x40]).sd_cmd_idx + 1 ∧
      (egos_sd_write (writeBytes (initState oobStorage) [0x40]) SPI1_TXDATA 7).sd_cmd
          (writeBytes (initState oobStorage) [0x40]).sd_cmd_idx = 7 % 256 ∧
      ((egos_sd_write (writeBytes (initState oobStorage) [0x40]) SPI1_TXDATA 7).fatal = true ↔
        ((writeBytes (initState oobStorage) [0x40]).sd_cmd_idx + 1 = 32 ∨
          (writeBytes (initState oobStorage) [0x40]).fatal = true))) :=
  ⟨by decide, c3_amended (writeBytes (initState oobStorage) [0x40]) 7 (by decide) (by decide)⟩

/-- Counterexample for claim C4: a recognized opcode written while the
controller is Ready (here, CMD8 right after a completed CMD0 frame
whose reply was not read) is appended at the current position instead
of resetting the buffer: command_length becomes 7, not 1. -/
theorem c4_counterexample :
    (readBytes (writeBytes (initState oobStorage) [0x40, 0, 0, 0, 0, 0x95]) 1).1.sd_state
        = SD_READY ∧
    (egos_sd_write (readBytes (writeBytes (initState oobStorage) [0x40, 0, 0, 0, 0, 0x95]) 1).1
        SPI1_TXDATA 0x48).sd_state = SD_GETTING_CMD8 ∧
    (egos_sd_write (readBytes (writeBytes (initState oobStorage) [0x40, 0, 0, 0, 0, 0x95]) 1).1
        SPI1_TXDATA 0x48).sd_cmd_idx = 7 ∧
    ¬(egos_sd_write (readBytes (writeBytes (initState oobStorage) [0x40, 0, 0, 0, 0, 0x95]) 1).1
        SPI1_TXDATA 0x48).sd_cmd_idx = 1 := by
  decide

/-- Claim C4 as amended: a recognized opcode written while the state is
Idle or Ready moves the controller to the matching Receiving* state and
stores the opcode byte at the current command_length position, growing
command_length by one; the buffer is not reset first, so it contains
exactly the one opcode byte only when command_length was 0 before the
write (as it is in every reachable Idle state). -/
theorem c4_amended (s : SDState) (v st : Nat)
    (hst : s.sd_state = SD_IDLE ∨ s.sd_state = SD_READY)
    (hop : opcodeTarget v = some st) :
    egos_sd_write s SPI1_TXDATA v =
      { s with sd_cmd := updN s.sd_cmd s.sd_cmd_idx v
               sd_cmd_idx := s.sd_cmd_idx + 1
               sd_state := st } := by
  have hni : ¬(¬s.sd_state = SD_IDLE ∧ ¬s.sd_state = SD_READY) := by tauto
  unfold opcodeTarget at hop
  split_ifs at hop with h40 h48 h50 h51 h69 h77 h7A
  · subst h40
    rw [Option.some.injEq] at hop
    subst hop
    unfold egos_sd_write
    simp [hni]
  · subst h48
    rw [Option.some.injEq] at hop
    subst hop
    unfold egos_sd_write
    simp [hni]
  · subst h50
    rw [Option.some.injEq] at hop
    subst hop
    unfold egos_sd_write
    simp [hni]
  · subst h51
    rw [Option.some.injEq] at hop
    subst hop
    unfold egos_sd_write
    simp [hni]
  · subst h69
    rw [Option.some.injEq] at hop
    subst hop
    unfold egos_sd_write
    simp [hni]
  · subst h77
    rw [Option.some.injEq] at hop
    subst hop
    unfold egos_sd_write
    simp [hni]
  · subst h7A
    rw [Option.some.injEq] at hop
    subst hop
    unfold egos_sd_write
    simp [hni]

/-- Witness for the amended C4: CMD17 opcode written at reset. -/
theorem c4_amended_witness :
    ((initState oobStorage).sd_state = SD_IDLE ∨ (initState oobStorage).sd_state = SD_READY) ∧
    opcodeTarget 0x51 = some SD_GETTING_CMD17 ∧
    egos_sd_write (initState oobStorage) SPI1_TXDATA 0x51 =
      { initState oobStorage with
          sd_cmd := updN (initState oobStorage).sd_cmd (initState oobStorage).sd_cmd_idx 0x51
          sd_cmd_idx := (initState oobStorage).sd_cmd_idx + 1
          sd_state := SD_GETTING_CMD17 } :=
  ⟨Or.inl rfl, rfl,
    c4_amended (initState oobStorage) 0x51 SD_GETTING_CMD17 (Or.inl rfl) rfl⟩

/-- The 6-byte CMD0 frame of the reference firmware. -/
def cmd0Frame : List Nat := [0x40, 0x00, 0x00, 0x00, 0x00, 0x95]

/-- One full CMD0 exchange: the 6-byte frame, the frame-completion read
(which returns the 0xFF bus filler and promotes the state to Ready),
and the reply read.  Yields the final state and the reply byte. -/
def cmd0Exchange (s : SDState) : SDState × Nat :=
  let s6 := writeBytes s cmd0Frame
  let p1 := egos_sd_read s6 SPI1_RXDATA
  let p2 := egos_sd_read p1.1 SPI1_RXDATA
  (p2.1, p2.2)

/-- Claim C8: from any Idle state with an empty command buffer, two
consecutive independent CMD0 exchanges both reply 0x01, and after each
exchange the state is Idle again, command_length is 0, and the
command_buffer (the meaningful prefix of sd_cmd) is empty, exactly as
before the exchange: no residual protocol state bleeds between them. -/
theorem c8_cmd0_idempotent (s : SDState)
    (hstate : s.sd_state = SD_IDLE) (hidx : s.sd_cmd_idx = 0) :
    (cmd0Exchange s).2 = 0x01 ∧
    (cmd0Exchange (cmd0Exchange s).1).2 = 0x01 ∧
    (cmd0Exchange s).1.sd_state = SD_IDLE ∧
    (cmd0Exchange s).1.sd_cmd_idx = 0 ∧
    commandBuffer (cmd0Exchange s).1 = commandBuffer s ∧
    (cmd0Exchange (cmd0Exchange s).1).1.sd_state = SD_IDLE ∧
    (cmd0Exchange (cmd0Exchange s).1).1.sd_cmd_idx = 0 ∧
    commandBuffer (cmd0Exchange (cmd0Exchange s).1).1 = commandBuffer (cmd0Exchange s).1 := by
  rcases s with ⟨st, idx, cmd, stor, i8, i58, i17, b2r, f⟩
  dsimp only at hstate hidx
  subst hstate
  subst hidx
  simp [cmd0Exchange, cmd0Frame, commandBuffer, readBytes, writeBytes, egos_sd_read,
    egos_sd_write, sd_chain, initState, updN, updI, cmd8_reply, cmd58_reply,
    SD_IDLE, SD_READY, SD_GETTING_CMD0, SD_GETTING_CMD8, SD_GETTING_CMD16, SD_GETTING_CMD55,
    SD_GETTING_CMD58, SD_GETTING_ACMD41, SD_GETTING_CMD17, SPI1_TXDATA, SPI1_RXDATA]

/-- Witness for C8 at the reset state. -/
theorem c8_cmd0_idempotent_witness :
    ((initState oobStorage).sd_state = SD_IDLE ∧ (initState oobStorage).sd_cmd_idx = 0) ∧
    ((cmd0Exchange (initState oobStorage)).2 = 0x01 ∧
      (cmd0Exchange (cmd0Exchange (initState oobStorage)).1).2 = 0x01 ∧
      (cmd0Exchange (initState oobStorage)).1.sd_state = SD_IDLE ∧
      (cmd0Exchange (initState oobStorage)).1.sd_cmd_idx = 0 ∧
      commandBuffer (cmd0Exchange (initState oobStorage)).1 = commandBuffer (initState oobStorage) ∧
      (cmd0Exchange (cmd0Exchange (initState oobStorage)).1).1.sd_state = SD_IDLE ∧
      (cmd0Exchange (cmd0Exchange (initState oobStorage)).1).1.sd_cmd_idx = 0 ∧
      commandBuffer (cmd0Exchange (cmd0Exchange (initState oobStorage)).1).1 =
        commandBuffer (cmd0Exchange (initState oobStorage)).1) :=
  ⟨⟨rfl, rfl⟩, c8_cmd0_idempotent (initState oobStorage) rfl rfl⟩

/-- Claim C5: after the CMD8 frame completes, the filler read promotes
the state and the five reply reads return 0x01 0x00 0x00 0x01 0xAA in
order; after the CMD58 frame, the five reply reads return 0x00 0xC0
0xFF 0x80 0x00; in both cases the controller is still Ready after the
4th reply byte and resets to Idle on serving the 5th. -/
theorem c5_cmd8_cmd58_replies (storage : Int → Nat) :
    (readBytes (writeBytes (initState storage) [0x48, 0x00, 0x00, 0x01, 0xAA, 0x87]) 6).2
        = [0xFF, 0x01, 0x00, 0x00, 0x01, 0xAA] ∧
    (readBytes (writeBytes (initState storage) [0x48, 0x00, 0x00, 0x01, 0xAA, 0x87]) 5).1.sd_state
        = SD_READY ∧
    (readBytes (writeBytes (initState storage) [0x48, 0x00, 0x00, 0x01, 0xAA, 0x87]) 6).1.sd_state
        = SD_IDLE ∧
    (readBytes (writeBytes (initState storage) [0x7A, 0x00, 0x00, 0x00, 0x00, 0xFF]) 6).2
        = [0xFF, 0x00, 0xC0, 0xFF, 0x80, 0x00] ∧
    (readBytes (writeBytes (initState storage) [0x7A, 0x00, 0x00, 0x00, 0x00, 0xFF]) 5).1.sd_state
        = SD_READY ∧
    (readBytes (writeBytes (initState storage) [0x7A, 0x00, 0x00, 0x00, 0x00, 0xFF]) 6).1.sd_state
        = SD_IDLE := by
  simp [readBytes, writeBytes, egos_sd_read, egos_sd_write, sd_chain, initState, updN, updI,
    cmd8_reply, cmd58_reply, SD_IDLE, SD_READY, SD_GETTING_CMD0, SD_GETTING_CMD8,
    SD_GETTING_CMD16, SD_GETTING_CMD55, SD_GETTING_CMD58, SD_GETTING_ACMD41, SD_GETTING_CMD17,
    SPI1_TXDATA, SPI1_RXDATA]
  all_goals decide

lemma readBytes_add (m n : Nat) : ∀ s : SDState,
    readBytes s (m + n) =
      ((readBytes (readBytes s m).1 n).1,
        (readBytes s m).2 ++ (readBytes (readBytes s m).1 n).2) := by
  induction m with
  | zero =>
    intro s
    simp [readBytes]
  | succ m ih =>
    intro s
    have hmn : m + 1 + n = (m + n) + 1 := by omega
    rw [hmn]
    simp only [readBytes, ih]
    simp

lemma readBytes_add_fst (m n : Nat) (s : SDState) :
    (readBytes s (m + n)).1 = (readBytes (readBytes s m).1 n).1 := by
  rw [readBytes_add]

lemma readBytes_add_snd (m n : Nat) (s : SDState) :
    (readBytes s (m + n)).2 = (readBytes s m).2 ++ (readBytes (readBytes s m).1 n).2 := by
  rw [readBytes_add]

lemma readBytes_one_fst (s : SDState) :
    (readBytes s 1).1 = (egos_sd_read s SPI1_RXDATA).1 := rfl

lemma readBytes_one_snd (s : SDState) :
    (readBytes s 1).2 = [(egos_sd_read s SPI1_RXDATA).2] := rfl

lemma read_stream_step (s : SDState) (h1 : s.sd_state = SD_READY) (h2 : s.sd_cmd 0 = 0x51)
    (h3 : s.block_to_read 0 = 0xFE) (h4 : 0 ≤ s.cmd17_idx) (h5 : s.cmd17_idx < 512) :
    egos_sd_read s SPI1_RXDATA =
      ({ s with cmd17_idx := s.cmd17_idx + 1 }, s.block_to_read s.cmd17_idx &&& 0xFF) := by
  have hupd := updI_eq_self h3
  have hne : ¬s.cmd17_idx = -1 := by omega
  unfold egos_sd_read sd_chain
  simp [h1, h2, h3, hupd, hne, h5, SD_READY]

lemma read_stream_last (s : SDState) (h1 : s.sd_state = SD_READY) (h2 : s.sd_cmd 0 = 0x51)
    (h3 : s.block_to_read 0 = 0xFE) (h5 : s.cmd17_idx = 512) :
    egos_sd_read s SPI1_RXDATA =
      ({ s with cmd17_idx := -1, sd_cmd_idx := 0, sd_state := SD_IDLE },
        s.block_to_read s.cmd17_idx &&& 0xFF) := by
  have hupd := updI_eq_self h3
  unfold egos_sd_read sd_chain
  simp [h1, h2, h3, hupd, h5, SD_READY]

lemma read_dispatch_cmd17 (s : SDState) (h1 : s.sd_state = SD_READY) (h2 : s.sd_cmd 0 = 0x51)
    (h3 : s.cmd17_idx = -1) :
    egos_sd_read s SPI1_RXDATA =
      ({ s with
          cmd17_idx := 0
          block_to_read := fun i =>
            if 1 ≤ i ∧ i ≤ 512 then s.sd_storage (cmd17_offset s + (i - 1))
            else updI s.block_to_read 0 0xFE i }, 0x00) := by
  unfold egos_sd_read sd_chain
  simp [h1, h2, h3, SD_READY, cmd17_offset]

lemma readBytes_stream : ∀ (n : Nat) (s : SDState),
    s.sd_state = SD_READY → s.sd_cmd 0 = 0x51 → s.block_to_read 0 = 0xFE →
    0 ≤ s.cmd17_idx → s.cmd17_idx ≤ 512 → s.cmd17_idx + (n : Int) = 513 →
    (readBytes s n).2 =
      (List.range n).map (fun (k : Nat) => s.block_to_read (s.cmd17_idx + (k : Int)) &&& 0xFF) ∧
    (readBytes s n).1.sd_state = SD_IDLE ∧
    (readBytes s n).1.cmd17_idx = -1 ∧
    (readBytes s n).1.sd_cmd_idx = 0 ∧
    (readBytes s n).1.block_to_read = s.block_to_read ∧
    (readBytes s n).1.sd_cmd = s.sd_cmd := by
  intro n
  induction n with
  | zero =>
    intro s h1 h2 h3 h4 h5 h6
    exfalso
    push_cast at h6
    omega
  | succ n ih =>
    intro s h1 h2 h3 h4 h5 h6
    by_cases hn : s.cmd17_idx = 512
    · have hn0 : n = 0 := by push_cast at h6; omega
      subst hn0
      simp only [readBytes, read_stream_last s h1 h2 h3 hn]
      rw [show List.range 1 = [0] from rfl]
      simp
    · have hlt : s.cmd17_idx < 512 := by omega
      have hstep := read_stream_step s h1 h2 h3 h4 hlt
      have ih1 := ih { s with cmd17_idx := s.cmd17_idx + 1 }
        (by simpa using h1) (by simpa using h2) (by simpa using h3)
        (by simp; omega) (by simp; omega) (by simp; push_cast at h6 ⊢; omega)
      simp only [readBytes, hstep]
      obtain ⟨ho, hf1, hf2, hf3, hf4, hf5⟩ := ih1
      simp only at ho hf1 hf2 hf3 hf4 hf5
      refine ⟨?_, hf1, hf2, hf3, hf4, hf5⟩
      rw [ho]
      rw [List.range_succ_eq_map, List.map_cons]
      congr 1
      · norm_num
      · rw [List.map_map]
        apply List.map_congr_left
        intro k hk
        have hidx : s.cmd17_idx + ((k + 1 : Nat) : Int) = s.cmd17_idx + 1 + (k : Int) := by
          push_cast
          ring
        simp only [Function.comp, Nat.succ_eq_add_one, hidx]

lemma readBytes_streamMid : ∀ (n : Nat) (s : SDState),
    s.sd_state = SD_READY → s.sd_cmd 0 = 0x51 → s.block_to_read 0 = 0xFE →
    0 ≤ s.cmd17_idx → s.cmd17_idx + (n : Int) ≤ 512 →
    (readBytes s n).1.sd_state = SD_READY ∧
    (readBytes s n).1.cmd17_idx = s.cmd17_idx + (n : Int) ∧
    (readBytes s n).1.block_to_read = s.block_to_read ∧
    (readBytes s n).1.sd_cmd = s.sd_cmd := by
  intro n
  induction n with
  | zero =>
    intro s h1 h2 h3 h4 h5
    simp [readBytes, h1]
  | succ n ih =>
    intro s h1 h2 h3 h4 h5
    have hlt : s.cmd17_idx < 512 := by push_cast at h5; omega
    have hstep := read_stream_step s h1 h2 h3 h4 hlt
    have ih1 := ih { s with cmd17_idx := s.cmd17_idx + 1 }
      (by simpa using h1) (by simpa using h2) (by simpa using h3)
      (by simp; omega) (by simp; push_cast at h5 ⊢; omega)
    simp only [readBytes, hstep]
    obtain ⟨f1, f2, f3, f4⟩ := ih1
    simp only at f1 f2 f3 f4
    refine ⟨f1, ?_, f3, f4⟩
    rw [f2]
    push_cast
    ring

/-- Claim C9 (implicit): the first Ready-state read that dispatches a
completed CMD17 frame returns 0x00 (an R1-style acknowledgment) and
only stages the block: the state stays Ready, the cursor moves to 0,
and the staging buffer holds the 0xFE start token at index 0 with the
512 block bytes after it.  The start token is returned by the second
Ready-state read; after 512 further reads the controller is still
Ready, and the 513th read after the dispatch (the 514th Ready-state
read of the transfer) resets it to Idle with the cursor back at -1. -/
theorem c9_cmd17_ack_then_stream (s : SDState)
    (h1 : s.sd_state = SD_READY) (h2 : s.sd_cmd 0 = 0x51) (h3 : s.cmd17_idx = -1) :
    (egos_sd_read s SPI1_RXDATA).2 = 0x00 ∧
    (egos_sd_read s SPI1_RXDATA).1.sd_state = SD_READY ∧
    (egos_sd_read s SPI1_RXDATA).1.cmd17_idx = 0 ∧
    (egos_sd_read s SPI1_RXDATA).1.block_to_read 0 = 0xFE ∧
    (∀ k : Int, 1 ≤ k → k ≤ 512 →
      (egos_sd_read s SPI1_RXDATA).1.block_to_read k =
        s.sd_storage (cmd17_offset s + (k - 1))) ∧
    (egos_sd_read (egos_sd_read s SPI1_RXDATA).1 SPI1_RXDATA).2 = 0xFE ∧
    (readBytes (egos_sd_read s SPI1_RXDATA).1 512).1.sd_state = SD_READY ∧
    (readBytes (egos_sd_read s SPI1_RXDATA).1 513).1.sd_state = SD_IDLE ∧
    (readBytes (egos_sd_read s SPI1_RXDATA).1 513).1.cmd17_idx = -1 := by
  have hd := read_dispatch_cmd17 s h1 h2 h3
  have e1 : (egos_sd_read s SPI1_RXDATA).1.sd_state = SD_READY := by
    rw [hd]
    simpa using h1
  have e2 : (egos_sd_read s SPI1_RXDATA).1.cmd17_idx = 0 := by
    rw [hd]
  have e3 : (egos_sd_read s SPI1_RXDATA).1.sd_cmd 0 = 0x51 := by
    rw [hd]
    simpa using h2
  have e4 : (egos_sd_read s SPI1_RXDATA).1.block_to_read 0 = 0xFE := by
    rw [hd]
    norm_num [updI]
  have e5 : ∀ k : Int, 1 ≤ k → k ≤ 512 →
      (egos_sd_read s SPI1_RXDATA).1.block_to_read k =
        s.sd_storage (cmd17_offset s + (k - 1)) := by
    intro k hk1 hk2
    rw [hd]
    simp only
    rw [if_pos ⟨hk1, hk2⟩]
  have hstream := readBytes_stream 513 (egos_sd_read s SPI1_RXDATA).1 e1 e3 e4
    (by rw [e2]) (by rw [e2]; norm_num) (by rw [e2]; norm_num)
  have hmid := readBytes_streamMid 512 (egos_sd_read s SPI1_RXDATA).1 e1 e3 e4
    (by rw [e2]) (by rw [e2]; norm_num)
  have e6 : (egos_sd_read (egos_sd_read s SPI1_RXDATA).1 SPI1_RXDATA).2 = 0xFE := by
    rw [read_stream_step (egos_sd_read s SPI1_RXDATA).1 e1 e3 e4 (by rw [e2]) (by rw [e2]; norm_num)]
    simp only [e4, e2]
    decide
  refine ⟨by rw [hd], e1, e2, e4, e5, e6, hmid.1, hstream.2.1, hstream.2.2.1⟩

lemma wrap32_of_small (x : Int) (h0 : 0 ≤ x) (hlt : x < 2147483648) :
    wrap32 x = x := by
  have hm : x.emod 4294967296 = x := Int.emod_eq_of_lt h0 (by omega)
  unfold wrap32
  rw [hm]
  unfold toInt32
  rw [if_pos (by omega)]
  exact Int.toNat_of_nonneg h0

lemma stage_map_eq (t : SDState) (n : Nat) (off : Int) (storage : Int → Nat)
    (hstor : ∀ i, storage i < 256)
    (hidx : t.cmd17_idx = 0) (hb0 : t.block_to_read 0 = 0xFE)
    (hbk : ∀ k : Int, 1 ≤ k → k ≤ (n : Int) → t.block_to_read k = storage (off + (k - 1))) :
    (List.range (n + 1)).map (fun (k : Nat) => t.block_to_read (t.cmd17_idx + (k : Int)) &&& 0xFF) =
      0xFE :: (List.range n).map (fun (k : Nat) => storage (off + (k : Int))) := by
  simp only [hidx]
  rw [List.range_succ_eq_map, List.map_cons, List.map_map]
  congr 1
  · norm_num [hb0]
    decide
  · apply List.map_congr_left
    intro k hk
    rw [List.mem_range] at hk
    have hk1 : (1 : Int) ≤ 0 + ((k + 1 : Nat) : Int) := by push_cast; omega
    have hk2 : (0 : Int) + ((k + 1 : Nat) : Int) ≤ (n : Int) := by push_cast; omega
    simp only [Function.comp, Nat.succ_eq_add_one]
    rw [hbk _ hk1 hk2]
    have harg : off + (0 + ((k + 1 : Nat) : Int) - 1) = off + (k : Int) := by
      push_cast
      ring
    rw [harg]
    have h255 : (0xFF : Nat) = 2 ^ 8 - 1 := by norm_num
    rw [h255, Nat.and_pow_two_sub_one_of_lt_two_pow (hstor (off + (k : Int)))]

lemma cmd17_offset_of_frame (s : SDState) (b3 b4 : Nat) (h3 : b3 < 256) (h4 : b4 < 256)
    (hc1 : s.sd_cmd 1 = 0) (hc2 : s.sd_cmd 2 = 0)
    (hc3 : s.sd_cmd 3 = b3) (hc4 : s.sd_cmd 4 = b4) :
    cmd17_offset s = (((256 * b3 + b4) * 512 : Nat) : Int) := by
  rw [cmd17_offset, hc1, hc2, hc3, hc4]
  have hpat := blockNoPat_eq 0 0 b3 b4 (by norm_num) (by norm_num) h3 h4
  have hint : blockNoInt 0 0 b3 b4 = ((256 * b3 + b4 : Nat) : Int) := by
    unfold blockNoInt toInt32
    rw [hpat]
    rw [if_pos (by omega)]
    push_cast
    ring
  rw [hint]
  rw [show ((256 * b3 + b4 : Nat) : Int) * 512 = (((256 * b3 + b4) * 512 : Nat) : Int) by
    push_cast
    ring]
  exact wrap32_of_small _ (by positivity) (by push_cast; omega)

set_option maxRecDepth 16384 in
/-- Claim C2 as amended: for every completed CMD17 frame addressing an
in-range block (argument bytes 0, 0, b3, b4 with 256*b3 + b4 < 8192, so
the 512-byte range lies inside the 4 MiB store) on any byte-valued
backing store, the full exchange takes 515 reads: the frame-completion
filler 0xFF, then a 514-byte reply consisting of the 0x00
acknowledgment, the start token 0xFE, and the 512 bytes of
backing_store[block*512 .. block*512+512] in order; the controller is
still Ready after the 513th reply byte, resets to Idle (cursor -1)
after the 514th, and a subsequent read returns the 0xFF idle filler. -/
theorem c2_amended_cmd17_reply (storage : Int → Nat) (hstor : ∀ i, storage i < 256)
    (b3 b4 : Nat) (h3 : b3 < 256) (h4 : b4 < 256) (hblk : 256 * b3 + b4 < 8192) :
    (readBytes (writeBytes (initState storage) [0x51, 0x00, 0x00, b3, b4, 0xFF]) 515).2 =
      0xFF :: 0x00 :: 0xFE ::
        (List.range 512).map
          (fun (k : Nat) => storage ((((256 * b3 + b4) * 512 : Nat) : Int) + (k : Int))) ∧
    (readBytes (writeBytes (initState storage) [0x51, 0x00, 0x00, b3, b4, 0xFF]) 514).1.sd_state
      = SD_READY ∧
    (readBytes (writeBytes (initState storage) [0x51, 0x00, 0x00, b3, b4, 0xFF]) 515).1.sd_state
      = SD_IDLE ∧
    (readBytes (writeBytes (initState storage) [0x51, 0x00, 0x00, b3, b4, 0xFF]) 515).1.cmd17_idx
      = -1 ∧
    (egos_sd_read
      (readBytes (writeBytes (initState storage) [0x51, 0x00, 0x00, b3, b4, 0xFF]) 515).1
      SPI1_RXDATA).2 = 0xFF := by
  have hB_state : (readBytes (writeBytes (initState storage) [0x51, 0x00, 0x00, b3, b4, 0xFF]) 1).1.sd_state = SD_READY := by
    simp [readBytes, writeBytes, egos_sd_read, egos_sd_write, sd_chain, initState, updN, updI,
      cmd8_reply, cmd58_reply, SD_IDLE, SD_READY, SD_GETTING_CMD0, SD_GETTING_CMD8,
      SD_GETTING_CMD16, SD_GETTING_CMD55, SD_GETTING_CMD58, SD_GETTING_ACMD41, SD_GETTING_CMD17,
      SPI1_TXDATA, SPI1_RXDATA]
  have hB_cmd0 : (readBytes (writeBytes (initState storage) [0x51, 0x00, 0x00, b3, b4, 0xFF]) 1).1.sd_cmd 0 = 0x51 := by
    simp [readBytes, writeBytes, egos_sd_read, egos_sd_write, sd_chain, initState, updN, updI,
      SD_IDLE, SD_READY, SD_GETTING_CMD17, SPI1_TXDATA, SPI1_RXDATA]
  have hB_idx : (readBytes (writeBytes (initState storage) [0x51, 0x00, 0x00, b3, b4, 0xFF]) 1).1.cmd17_idx = -1 := by
    simp [readBytes, writeBytes, egos_sd_read, egos_sd_write, sd_chain, initState, updN, updI,
      SD_IDLE, SD_READY, SD_GETTING_CMD17, SPI1_TXDATA, SPI1_RXDATA]
  have hB_stor : (readBytes (writeBytes (initState storage) [0x51, 0x00, 0x00, b3, b4, 0xFF]) 1).1.sd_storage = storage := by
    simp [readBytes, writeBytes, egos_sd_read, egos_sd_write, sd_chain, initState, updN, updI,
      SD_IDLE, SD_READY, SD_GETTING_CMD17, SPI1_TXDATA, SPI1_RXDATA]
  have hB_out : (readBytes (writeBytes (initState storage) [0x51, 0x00, 0x00, b3, b4, 0xFF]) 1).2 = [0xFF] := by
    simp [readBytes, writeBytes, egos_sd_read, egos_sd_write, sd_chain, initState, updN, updI,
      SD_IDLE, SD_READY, SD_GETTING_CMD17, SPI1_TXDATA, SPI1_RXDATA]
  have hoff : cmd17_offset (readBytes (writeBytes (initState storage) [0x51, 0x00, 0x00, b3, b4, 0xFF]) 1).1 = (((256 * b3 + b4) * 512 : Nat) : Int) := by
    have hc1 : (readBytes (writeBytes (initState storage) [0x51, 0x00, 0x00, b3, b4, 0xFF]) 1).1.sd_cmd 1 = 0 := by
      simp [readBytes, writeBytes, egos_sd_read, egos_sd_write, sd_chain, initState, updN, updI,
        SD_IDLE, SD_READY, SD_GETTING_CMD17, SPI1_TXDATA, SPI1_RXDATA]
    have hc2 : (readBytes (writeBytes (initState storage) [0x51, 0x00, 0x00, b3, b4, 0xFF]) 1).1.sd_cmd 2 = 0 := by
      simp [readBytes, writeBytes, egos_sd_read, egos_sd_write, sd_chain, initState, updN, updI,
        SD_IDLE, SD_READY, SD_GETTING_CMD17, SPI1_TXDATA, SPI1_RXDATA]
    have hc3 : (readBytes (writeBytes (initState storage) [0x51, 0x00, 0x00, b3, b4, 0xFF]) 1).1.sd_cmd 3 = b3 := by
      simp [readBytes, writeBytes, egos_sd_read, egos_sd_write, sd_chain, initState, updN, updI,
        SD_IDLE, SD_READY, SD_GETTING_CMD17, SPI1_TXDATA, SPI1_RXDATA, Nat.mod_eq_of_lt h3]
    have hc4 : (readBytes (writeBytes (initState storage) [0x51, 0x00, 0x00, b3, b4, 0xFF]) 1).1.sd_cmd 4 = b4 := by
      simp [readBytes, writeBytes, egos_sd_read, egos_sd_write, sd_chain, initState, updN, updI,
        SD_IDLE, SD_READY, SD_GETTING_CMD17, SPI1_TXDATA, SPI1_RXDATA, Nat.mod_eq_of_lt h4]
    exact cmd17_offset_of_frame _ b3 b4 h3 h4 hc1 hc2 hc3 hc4
  have hd := read_dispatch_cmd17 _ hB_state hB_cmd0 hB_idx
  have hC_state : (egos_sd_read (readBytes (writeBytes (initState storage) [0x51, 0x00, 0x00, b3, b4, 0xFF]) 1).1 SPI1_RXDATA).1.sd_state = SD_READY := by
    rw [hd]
    simpa using hB_state
  have hC_cmd0 : (egos_sd_read (readBytes (writeBytes (initState storage) [0x51, 0x00, 0x00, b3, b4, 0xFF]) 1).1 SPI1_RXDATA).1.sd_cmd 0 = 0x51 := by
    rw [hd]
    simpa using hB_cmd0
  have hC_idx : (egos_sd_read (readBytes (writeBytes (initState storage) [0x51, 0x00, 0x00, b3, b4, 0xFF]) 1).1 SPI1_RXDATA).1.cmd17_idx = 0 := by
    rw [hd]
  have hC_b0 : (egos_sd_read (readBytes (writeBytes (initState storage) [0x51, 0x00, 0x00, b3, b4, 0xFF]) 1).1 SPI1_RXDATA).1.block_to_read 0 = 0xFE := by
    rw [hd]
    norm_num [updI]
  have hC_bk : ∀ k : Int, 1 ≤ k → k ≤ 512 →
      (egos_sd_read (readBytes (writeBytes (initState storage) [0x51, 0x00, 0x00, b3, b4, 0xFF]) 1).1 SPI1_RXDATA).1.block_to_read k
        = storage ((((256 * b3 + b4) * 512 : Nat) : Int) + (k - 1)) := by
    intro k hk1 hk2
    rw [hd]
    simp only
    rw [if_pos ⟨hk1, hk2⟩, hB_stor, hoff]
  have hstream := readBytes_stream 513 _ hC_state hC_cmd0 hC_b0
    (by rw [hC_idx]) (by rw [hC_idx]; norm_num) (by rw [hC_idx]; norm_num)
  have hmid := readBytes_streamMid 512 _ hC_state hC_cmd0 hC_b0
    (by rw [hC_idx]) (by rw [hC_idx]; norm_num)
  have hret : (egos_sd_read (readBytes (writeBytes (initState storage) [0x51, 0x00, 0x00, b3, b4, 0xFF]) 1).1 SPI1_RXDATA).2 = 0x00 := by
    rw [hd]
  have h515 : (515 : Nat) = 1 + 514 := rfl
  have h514 : (514 : Nat) = 1 + 513 := rfl
  have h513s : (513 : Nat) = 1 + 512 := rfl
  have hmap := stage_map_eq _ 512 (((256 * b3 + b4) * 512 : Nat) : Int) storage hstor
    hC_idx hC_b0 hC_bk
  constructor
  · rw [h515, readBytes_add_snd, hB_out, h514, readBytes_add_snd,
      readBytes_one_snd (readBytes (writeBytes (initState storage) [0x51, 0x00, 0x00, b3, b4, 0xFF]) 1).1,
      readBytes_one_fst (readBytes (writeBytes (initState storage) [0x51, 0x00, 0x00, b3, b4, 0xFF]) 1).1,
      hstream.1, hmap, hret]
    rfl
  constructor
  · rw [h514, readBytes_add_fst, h513s, readBytes_add_fst,
      readBytes_one_fst (readBytes (writeBytes (initState storage) [0x51, 0x00, 0x00, b3, b4, 0xFF]) 1).1]
    exact hmid.1
  constructor
  · rw [h515, readBytes_add_fst, h514, readBytes_add_fst,
      readBytes_one_fst (readBytes (writeBytes (initState storage) [0x51, 0x00, 0x00, b3, b4, 0xFF]) 1).1]
    exact hstream.2.1
  constructor
  · rw [h515, readBytes_add_fst, h514, readBytes_add_fst,
      readBytes_one_fst (readBytes (writeBytes (initState storage) [0x51, 0x00, 0x00, b3, b4, 0xFF]) 1).1]
    exact hstream.2.2.1
  · have hidle : (readBytes (writeBytes (initState storage) [0x51, 0x00, 0x00, b3, b4, 0xFF]) 515).1.sd_state = SD_IDLE := by
      rw [h515, readBytes_add_fst, h514, readBytes_add_fst,
        readBytes_one_fst (readBytes (writeBytes (initState storage) [0x51, 0x00, 0x00, b3, b4, 0xFF]) 1).1]
      exact hstream.2.1
    generalize hgen : (readBytes (writeBytes (initState storage) [0x51, 0x00, 0x00, b3, b4, 0xFF]) 515).1 = X at hidle ⊢
    unfold egos_sd_read
    rw [if_neg (by simp)]
    rw [if_pos (by rw [hidle]; decide)]

/-- Counterexample for claim C2: after a completed CMD17 frame for
block 0, the first Ready-state (reply) read returns 0x00, not the
start token 0xFE. -/
theorem c2_counterexample :
    (readBytes (writeBytes (initState oobStorage) [0x51, 0x00, 0x00, 0x00, 0x00, 0xFF]) 1).1.sd_state
      = SD_READY ∧
    (readBytes (writeBytes (initState oobStorage) [0x51, 0x00, 0x00, 0x00, 0x00, 0xFF]) 2).2
      = [0xFF, 0x00] ∧
    ¬(egos_sd_read
        (readBytes (writeBytes (initState oobStorage) [0x51, 0x00, 0x00, 0x00, 0x00, 0xFF]) 1).1
        SPI1_RXDATA).2 = 0xFE := by
  decide

/-- Witness for the amended C2 at the all-zero backing store, block 0. -/
theorem c2_amended_cmd17_reply_witness :
    ((∀ i : Int, (fun _ : Int => (0 : Nat)) i < 256) ∧
      (0 : Nat) < 256 ∧ (0 : Nat) < 256 ∧ 256 * 0 + 0 < 8192) ∧
    (readBytes (writeBytes (initState (fun _ : Int => (0 : Nat)))
        [0x51, 0x00, 0x00, 0, 0, 0xFF]) 515).1.sd_state = SD_IDLE :=
  ⟨⟨fun i => by norm_num, by norm_num, by norm_num, by norm_num⟩,
    (c2_amended_cmd17_reply (fun _ => 0) (fun i => by norm_num) 0 0
      (by norm_num) (by norm_num) (by norm_num)).2.2.1⟩

/-- A concrete Ready state holding a completed CMD17 frame for block 0. -/
def readyCmd17State : SDState :=
  { sd_state := SD_READY
    sd_cmd_idx := 6
    sd_cmd := fun i => if i = 0 then 0x51 else 0
    sd_storage := oobStorage
    cmd8_idx := 0
    cmd58_idx := 0
    cmd17_idx := -1
    block_to_read := fun _ => 0
    fatal := false }

/-- Witness for C9 at a concrete Ready state holding a CMD17 frame. -/
theorem c9_cmd17_ack_then_stream_witness :
    (readyCmd17State.sd_state = SD_READY ∧ readyCmd17State.sd_cmd 0 = 0x51 ∧
      readyCmd17State.cmd17_idx = -1) ∧
    (egos_sd_read readyCmd17State SPI1_RXDATA).2 = 0x00 ∧
    (egos_sd_read (egos_sd_read readyCmd17State SPI1_RXDATA).1 SPI1_RXDATA).2 = 0xFE :=
  ⟨⟨rfl, rfl, rfl⟩,
    (c9_cmd17_ack_then_stream readyCmd17State rfl rfl rfl).1,
    (c9_cmd17_ack_then_stream readyCmd17State rfl rfl rfl).2.2.2.2.2.1⟩

/-- Claim C1: the code has no addressing check.  With the CMD17 frame
{0x51,0x00,0x00,0x20,0x00,0xFF} the decoded block number is 8192, whose
byte range 8192*512 .. 8192*512+512 lies entirely beyond the 4 MiB
backing store; the dispatch nevertheless proceeds with no fatal error
(fatal stays false, the transfer starts with cursor 0 and the state
stays Ready) and stages bytes read from beyond the store: with a
backing store that is 0 inside its 4 MiB and 0xAB outside, the staged
block bytes are 0xAB, showing an out-of-range read rather than a fatal
stop, an address wrap, or a zero fill. -/
theorem c1_code_bug :
    blockNoInt 0x00 0x00 0x20 0x00 = 8192 ∧
    (SD_STORAGE_SIZE : Int) < 8192 * 512 + 512 ∧
    oobStorage 0 = 0 ∧
    oobStorage 4194304 = 0xAB ∧
    (readBytes (writeBytes (initState oobStorage) [0x51, 0x00, 0x00, 0x20, 0x00, 0xFF]) 2).1.fatal
      = false ∧
    (readBytes (writeBytes (initState oobStorage) [0x51, 0x00, 0x00, 0x20, 0x00, 0xFF]) 2).1.sd_state
      = SD_READY ∧
    (readBytes (writeBytes (initState oobStorage) [0x51, 0x00, 0x00, 0x20, 0x00, 0xFF]) 2).1.cmd17_idx
      = 0 ∧
    (readBytes (writeBytes (initState oobStorage) [0x51, 0x00, 0x00, 0x20, 0x00, 0xFF]) 2).1.block_to_read 1
      = 0xAB ∧
    (readBytes (writeBytes (initState oobStorage) [0x51, 0x00, 0x00, 0x20, 0x00, 0xFF]) 2).1.block_to_read 512
      = 0xAB := by
  decide

lemma sd_chain_cmd17_cases (s : SDState) (c0 ret : Nat) :
    (sd_chain s c0 ret).1.cmd17_idx = s.cmd17_idx ∨
    (sd_chain s c0 ret).1.cmd17_idx = 0 ∨
    (sd_chain s c0 ret).1.cmd17_idx = -1 ∨
    ((sd_chain s c0 ret).1.cmd17_idx = s.cmd17_idx + 1 ∧
      ¬s.cmd17_idx = -1 ∧ s.cmd17_idx < 512) := by
  unfold sd_chain
  split_ifs with h1 h2 h3 h4 h5 h6
  · right
    left
    rfl
  · right
    right
    right
    exact ⟨rfl, fun he => h1 ⟨h2.1, he⟩, h2.2⟩
  · right
    right
    left
    rfl
  · left
    rfl
  · left
    rfl
  · left
    rfl
  · left
    rfl

lemma egos_sd_write_cmd17 (s : SDState) (addr val : Nat) :
    (egos_sd_write s addr val).cmd17_idx = s.cmd17_idx := by
  unfold egos_sd_write
  by_cases ha : addr ≠ SPI1_TXDATA
  · rw [if_pos ha]
  · rw [if_neg ha]
    by_cases hrecv : ¬s.sd_state = SD_IDLE ∧ ¬s.sd_state = SD_READY
    · rw [if_pos hrecv]
      dsimp only
      by_cases h32 : s.sd_cmd_idx + 1 = 32
      · rw [if_pos h32]
      · rw [if_neg h32]
    · rw [if_neg hrecv]
      by_cases h40 : val = 0x40
      · rw [if_pos h40]
      · rw [if_neg h40]
        by_cases h48 : val = 0x48
        · rw [if_pos h48]
        · rw [if_neg h48]
          by_cases h50 : val = 0x50
          · rw [if_pos h50]
          · rw [if_neg h50]
            by_cases h51 : val = 0x51
            · rw [if_pos h51]
            · rw [if_neg h51]
              by_cases h69 : val = 0x69
              · rw [if_pos h69]
              · rw [if_neg h69]
                by_cases h77 : val = 0x77
                · rw [if_pos h77]
                · rw [if_neg h77]
                  by_cases h7A : val = 0x7A
                  · rw [if_pos h7A]
                  · rw [if_neg h7A]
                    by_cases hFF : val = 0xFF
                    · rw [if_pos hFF]
                    · rw [if_neg hFF]

lemma egos_sd_read_cmd17_cases (s : SDState) (addr : Nat) :
    (egos_sd_read s addr).1.cmd17_idx = s.cmd17_idx ∨
    (egos_sd_read s addr).1.cmd17_idx = 0 ∨
    (egos_sd_read s addr).1.cmd17_idx = -1 ∨
    ((egos_sd_read s addr).1.cmd17_idx = s.cmd17_idx + 1 ∧
      ¬s.cmd17_idx = -1 ∧ s.cmd17_idx < 512) := by
  unfold egos_sd_read
  by_cases ha : addr ≠ SPI1_RXDATA
  · rw [if_pos ha]
    left
    rfl
  · rw [if_neg ha]
    by_cases hs : s.sd_state ≠ SD_READY
    · rw [if_pos hs]
      by_cases h6 : 6 ≤ s.sd_cmd_idx
      · rw [if_pos h6]
        left
        rfl
      · rw [if_neg h6]
        left
        rfl
    · rw [if_neg hs]
      dsimp only
      by_cases h40 : s.sd_cmd 0 = 0x40
      · rw [if_pos h40]
        simpa using sd_chain_cmd17_cases _ _ _
      · rw [if_neg h40]
        by_cases h48 : s.sd_cmd 0 = 0x48
        · rw [if_pos h48]
          simpa using sd_chain_cmd17_cases _ _ _
        · rw [if_neg h48]
          by_cases h7A : s.sd_cmd 0 = 0x7A
          · rw [if_pos h7A]
            simpa using sd_chain_cmd17_cases _ _ _
          · rw [if_neg h7A]
            by_cases hor : s.sd_cmd 0 = 0x50 ∨ s.sd_cmd 0 = 0x51 ∨ s.sd_cmd 0 = 0x69 ∨ s.sd_cmd 0 = 0x77
            · rw [if_pos hor]
              simpa using sd_chain_cmd17_cases _ _ _
            · rw [if_neg hor]
              left
              rfl

lemma blockToReadAccesses_bound (s : SDState) (hinv : cmd17Invariant s) :
    ∀ i ∈ blockToReadAccesses s, 0 ≤ i ∧ i ≤ 512 := by
  intro i hi
  unfold blockToReadAccesses at hi
  by_cases hnr : ¬s.sd_state = SD_READY
  · rw [if_pos hnr] at hi
    simp at hi
  · rw [if_neg hnr] at hi
    rcases List.mem_cons.mp hi with rfl | hi2
    · omega
    · by_cases hA : s.sd_cmd 0 = 0x51 ∧ s.cmd17_idx = -1
      · rw [if_pos hA] at hi2
        simp only [List.mem_map, List.mem_range] at hi2
        obtain ⟨k, hk, rfl⟩ := hi2
        omega
      · rw [if_neg hA] at hi2
        by_cases hB : s.sd_cmd 0 = 0x51 ∧ s.cmd17_idx < 512
        · rw [if_pos hB] at hi2
          simp only [List.mem_singleton] at hi2
          subst hi2
          have hne : ¬s.cmd17_idx = -1 := fun he => hA ⟨hB.1, he⟩
          have hlt := hB.2
          unfold cmd17Invariant at hinv
          rcases hinv with hv | hv <;> omega
        · rw [if_neg hB] at hi2
          by_cases hC : s.sd_cmd 0 = 0x51 ∧ s.cmd17_idx = 512
          · rw [if_pos hC] at hi2
            simp only [List.mem_singleton] at hi2
            subst hi2
            have h512 := hC.2
            omega
          · rw [if_neg hC] at hi2
            simp at hi2

/-- Claim C10 (implicit): in every state reachable through the two MMIO
entry points, the block-transfer cursor cmd17_idx is either -1 or in
0..512, and every index a read access uses on the 513-byte staging
buffer block_to_read (the start-token write at 0, the memcpy targets
1..512, and the streamed read at cmd17_idx) lies within 0..512. -/
theorem c10_cursor_invariant (storage : Int → Nat) (s : SDState)
    (h : Reachable storage s) :
    cmd17Invariant s ∧ ∀ i ∈ blockToReadAccesses s, 0 ≤ i ∧ i ≤ 512 := by
  have hinv : cmd17Invariant s := by
    induction h with
    | init =>
      left
      rfl
    | write s0 addr val hr hf ih =>
      unfold cmd17Invariant at ih ⊢
      rw [egos_sd_write_cmd17]
      exact ih
    | read s0 addr hr hf ih =>
      unfold cmd17Invariant at ih ⊢
      rcases egos_sd_read_cmd17_cases s0 addr with hc | hc | hc | ⟨hc, hne, hlt⟩ <;>
        rw [hc] <;> rcases ih with ih | ih <;> omega
  exact ⟨hinv, blockToReadAccesses_bound s hinv⟩

/-- Witness for C10 at the reset state. -/
theorem c10_cursor_invariant_witness :
    Reachable oobStorage (initState oobStorage) ∧
    (cmd17Invariant (initState oobStorage) ∧
      ∀ i ∈ blockToReadAccesses (initState oobStorage), 0 ≤ i ∧ i ≤ 512) :=
  ⟨Reachable.init, c10_cursor_invariant oobStorage (initState oobStorage) Reachable.init⟩
